import Mathlib

/-!
Shallow embedding of the per-frame gameplay simulation core
(kick-bomb hazard machine, item grab/drop/throw protocol, and the
walk player state) for verification of its specification.

Machine floats (`f32`) are embedded as exact rationals (`ℚ`): every
claim under verification concerns branch structure, sign flips and
comparisons, none of which depend on floating-point rounding.
-/

namespace FishCore

/-- 2D vector over ℚ, embedding the `Vec2` float vector used by the
simulation (an external math collaborator). -/
structure Vec2 where
  x : ℚ
  y : ℚ
deriving DecidableEq, Repr

instance : Add Vec2 := ⟨fun a b => ⟨a.x + b.x, a.y + b.y⟩⟩

/-- Component-wise multiplication, as the external vector library's
`Mul<Vec2> for Vec2`. -/
instance : Mul Vec2 := ⟨fun a b => ⟨a.x * b.x, a.y * b.y⟩⟩

/-- Scalar multiplication `v * s` of the external vector library. -/
instance : SMul ℚ Vec2 := ⟨fun s v => ⟨s * v.x, s * v.y⟩⟩

/-- `Vec2::ONE`. -/
def Vec2.one : Vec2 := ⟨1, 1⟩

@[simp]
theorem Vec2.mul_def (a b : Vec2) : a * b = ⟨a.x * b.x, a.y * b.y⟩ := rfl

@[simp]
theorem Vec2.smul_def (s : ℚ) (v : Vec2) : s • v = ⟨s * v.x, s * v.y⟩ := rfl

@[simp]
theorem Vec2.add_def (a b : Vec2) : a + b = ⟨a.x + b.x, a.y + b.y⟩ := rfl

/-- Rust `f32::signum`: `1.0` for non-negative values, `-1.0` for
negative values (ℚ has no negative zero). -/
def qsignum (q : ℚ) : ℚ := if 0 ≤ q then 1 else -1

/-- Rust `f32::is_sign_positive`: true for non-negative values (ℚ has
no negative zero). -/
def qIsSignPositive (q : ℚ) : Bool := decide (0 ≤ q)

/-- Modelled from the spec: the external `Timer` (bones framework
collaborator, not part of this repository's sources) per the glossary:
a monotonic elapsed-time accumulator compared against a fixed duration
to detect completion. -/
structure Timer where
  duration : ℚ
  elapsed : ℚ
deriving DecidableEq, Repr

/-- `Timer::tick(delta)`: advance the accumulator by the elapsed tick
time. -/
def Timer.tick (t : Timer) (delta : ℚ) : Timer :=
  { t with elapsed := t.elapsed + delta }

/-- `Timer::finished()`: the accumulator has reached the duration. -/
def Timer.finished (t : Timer) : Bool :=
  decide (t.duration ≤ t.elapsed)

/-- The player control input fields read by the systems under
verification (`PlayerControl`). -/
structure PlayerControl where
  move_direction : Vec2
  ragdoll_just_pressed : Bool
  jump_just_pressed : Bool
deriving DecidableEq, Repr

/-! ## Kick bomb (src/core/elements/kick_bomb.rs) -/

/-- The fields of `KickBombMeta` consulted by `update_lit_kick_bombs`
and `KickBombCommand::spawn_kick_bomb`. -/
structure KickBombMeta where
  kick_velocity : Vec2
  kickable : Bool
  throw_velocity : ℚ
  fuse_time : ℚ
  angular_velocity : ℚ
  arm_delay : ℚ
  explode_on_contact : Bool
deriving DecidableEq, Repr

/-- `LitKickBomb` component state. -/
structure LitKickBomb where
  arm_delay : Timer
  fuse_time : Timer
  kicking : Bool
  kicks : Nat
deriving DecidableEq, Repr

/-- The data `update_lit_kick_bombs` reads about the single
non-invincible player found in contact with the bomb by the kickable
branch's collision query: the player sprite's `flip_x` and the player
transform's x translation. -/
structure KickContact where
  player_flip_x : Bool
  player_x : ℚ
deriving DecidableEq, Repr

/-- Per-tick environment of `update_lit_kick_bombs` for one bomb:
the frame delta, the result of the explode-on-contact collision query
(some non-invincible player overlaps), whether some player inventory
references the bomb, and the result of the kickable branch's collision
query (the first colliding non-invincible player, if any). -/
structure KickEnv where
  delta : ℚ
  contact_players : Bool
  held : Bool
  kick_contact : Option KickContact
deriving DecidableEq, Repr

/-- The mutable per-bomb state threaded through one iteration of
`update_lit_kick_bombs`: the `LitKickBomb` component, the kinematic
body's velocity, and the bomb transform's x translation. -/
structure KickBombState where
  lit : LitKickBomb
  velocity : Vec2
  bomb_x : ℚ
deriving DecidableEq, Repr

/-- The kick-counter update on a contact tick:
`if !std::mem::replace(&mut kicking, true) { kicks += 1 }` — the
counter increments only when `kicking` was false (a contact edge).
`kicks` is a `u32`; the increment is taken modulo `2^32`. -/
def kicksAfterContact (l : LitKickBomb) : Nat :=
  if l.kicking then l.kicks else (l.kicks + 1) % 2 ^ 32

/-- The remainder of the kickable contact branch after the kick
counter has been updated: explode past 3 kicks, otherwise deflect the
bomb by the contacting player's facing and position, or explode once
armed when no deflection case applies. -/
def kickDeflect (m : KickBombMeta) (c : KickContact) (s : KickBombState) :
    KickBombState × Bool :=
  if 3 < s.lit.kicks then
    (s, true)
  else if s.velocity.x = 0 then
    ({ s with velocity :=
        if c.player_flip_x then ⟨-m.kick_velocity.x, m.kick_velocity.y⟩
        else m.kick_velocity }, false)
  else if decide (c.player_x ≤ s.bomb_x) && !c.player_flip_x then
    ({ s with velocity := ⟨m.kick_velocity.x, m.kick_velocity.y⟩ }, false)
  else if !decide (c.player_x ≤ s.bomb_x) && c.player_flip_x then
    ({ s with velocity := ⟨-m.kick_velocity.x, m.kick_velocity.y⟩ }, false)
  else if s.lit.arm_delay.finished then
    (s, true)
  else
    (s, false)

/-- The labelled `should_explode` block of `update_lit_kick_bombs`,
evaluated after both timers have been ticked: fuse check, then
explode-on-contact check, then held-in-inventory check, then the
kickable kick/deflect logic. -/
def litKickBombBranch (m : KickBombMeta) (e : KickEnv) (s : KickBombState) :
    KickBombState × Bool :=
  if s.lit.fuse_time.finished then
    (s, true)
  else if m.explode_on_contact && e.contact_players && s.lit.arm_delay.finished then
    (s, true)
  else if e.held then
    ({ s with lit := { s.lit with kicking := false } }, false)
  else if m.kickable then
    match e.kick_contact with
    | some c =>
      kickDeflect m c
        { s with lit := { s.lit with
            kicking := true, kicks := kicksAfterContact s.lit } }
    | none =>
      ({ s with lit := { s.lit with kicking := false } }, false)
  else
    (s, false)

/-- One iteration of the loop body of `update_lit_kick_bombs` for a
single lit bomb: tick both timers by the frame delta, then evaluate
the `should_explode` block; returns the updated state together with
the `should_explode` flag. -/
def litKickBombStep (m : KickBombMeta) (e : KickEnv) (s : KickBombState) :
    KickBombState × Bool :=
  litKickBombBranch m e
    { s with lit := { s.lit with
        fuse_time := s.lit.fuse_time.tick e.delta,
        arm_delay := s.lit.arm_delay.tick e.delta } }

/-- Run `litKickBombStep` over a list of per-tick environments until
the bomb explodes, returning the zero-based index of the exploding
tick (`none` when the bomb survives the whole list). -/
def litRunExplodesAt (m : KickBombMeta) (s : KickBombState) :
    List KickEnv → Option Nat
  | [] => none
  | e :: es =>
    let (s', ex) := litKickBombStep m e s
    if ex then some 0 else (litRunExplodesAt m s' es).map (· + 1)

/-- Final state after running `litKickBombStep` over a list of
environments, ignoring explosion (used to inspect the kick counter). -/
def litRunState (m : KickBombMeta) (s : KickBombState) :
    List KickEnv → KickBombState
  | [] => s
  | e :: es => litRunState m (litKickBombStep m e s).1 es

/-! ## Item throw profiles (src/core/item.rs) -/

/-- `ItemThrow` component: six named velocity vectors, a spin scalar
and the presence of the optional one-shot throw effect routine (the
routine itself is an opaque system value; only its presence is
observable to `throw_dropped_items`). -/
structure ItemThrow where
  normal : Vec2
  fast : Vec2
  up : Vec2
  drop : Vec2
  lob : Vec2
  roll : Vec2
  spin : ℚ
  hasSystem : Bool
deriving DecidableEq, Repr

/-- `ItemThrow::base()`, parameterised by the external vector
library's `normalize` (an irrational operation on floats, kept
abstract: no claim depends on its value). -/
def ItemThrow.base (vnormalize : Vec2 → Vec2) : ItemThrow :=
  { normal := (6 / 10 : ℚ) • vnormalize ⟨3 / 2, 6 / 5⟩
    fast := vnormalize ⟨3 / 2, 6 / 5⟩
    up := ⟨0, 11 / 10⟩
    drop := ⟨0, 0⟩
    lob := (11 / 10 : ℚ) • vnormalize ⟨1, 5 / 2⟩
    roll := ⟨4 / 10, -1 / 10⟩
    spin := 0
    hasSystem := false }

/-- `ItemThrow::strength(strength)`: the base profile with each throw
vector multiplied by `strength`. -/
def ItemThrow.strength (vnormalize : Vec2 → Vec2) (s : ℚ) : ItemThrow :=
  let base := ItemThrow.base vnormalize
  { normal := s • base.normal
    fast := s • base.fast
    up := s • base.up
    drop := s • base.drop
    lob := s • base.lob
    roll := s • base.roll
    spin := 0
    hasSystem := false }

/-- `ItemThrow::with_spin(spin)`. -/
def ItemThrow.with_spin (t : ItemThrow) (spin : ℚ) : ItemThrow :=
  { t with spin := spin }

/-- `ItemThrow::with_system(system)`: records the one-shot routine. -/
def ItemThrow.with_system (t : ItemThrow) : ItemThrow :=
  { t with hasSystem := true }

/-- `ItemThrow::velocity_from_control`: chooses one of the throw
vectors from the player's directional input. -/
def ItemThrow.velocity_from_control (t : ItemThrow) (pc : PlayerControl) : Vec2 :=
  let y := pc.move_direction.y
  let moving := 0 < |pc.move_direction.x|
  if y < 0 then
    if moving then t.roll else t.drop
  else if moving then
    if 0 < y then t.lob else t.fast
  else if 0 < y then t.up
  else t.normal

/-! ## Item drop and throw systems (src/core/item.rs) -/

/-- Kinematic body fields read and written by the item systems. -/
structure Body where
  velocity : Vec2
  angular_velocity : ℚ
  is_deactivated : Bool
deriving DecidableEq, Repr

/-- The world slice that `drop_items` and `throw_dropped_items`
observe and mutate for a single item and its (single) interacting
player P. Component lookups that may be absent are `Option`s. -/
structure ItemWorld where
  /-- `DropItem` marker on the item. -/
  dropMarker : Bool
  /-- Player P's `Inventory`: the item, when held. -/
  inventory : Option Unit
  /-- `ItemDropped` marker on the item (the dropping player is P). -/
  droppedMarker : Bool
  /-- `PlayerBodyAttachment` on the item. -/
  attachment : Bool
  /-- The item's `KinematicBody`. -/
  body : Option Body
  /-- The item's transform z translation. -/
  z : ℚ
  /-- Player P's `AtlasSprite` `flip_x`, when the sprite exists. -/
  playerFlipX : Option Bool
  /-- Whether player P still has a `PlayerIdx` component. -/
  playerIdxPresent : Bool
  /-- Map layer index of the item's originating spawner
  (`DehydrateOutOfBounds` back-reference), when present. -/
  itemSpawnerLayer : Option Nat
  /-- Layer indices of the entities carrying both a `PlayerSpawner`
  and a `SpawnedMapLayerMeta` component, in store iteration order. -/
  playerSpawnerLayers : List Nat
deriving DecidableEq, Repr

/-- Modelled from the spec: `PlayerCommand::set_inventory(player,
None)` (player module, not among the provided sources). Per the Drop
operation: on drop, the holder's inventory reference is cleared and a
dropped-by-P marker is placed. -/
def setInventoryNone (w : ItemWorld) : ItemWorld :=
  { w with inventory := none, droppedMarker := true }

/-- `drop_items`: for the player-inventory pair holding this item,
remove the `DropItem` marker if present and enqueue
`PlayerCommand::set_inventory(player, None)`; the returned flag is the
enqueued command (applied by the command drain after the stage). -/
def drop_items (w : ItemWorld) : ItemWorld × Bool :=
  match w.inventory with
  | some _ =>
    if w.dropMarker then ({ w with dropMarker := false }, true) else (w, false)
  | none => (w, false)

/-- The drop tick: run `drop_items`, then drain the command queue
(applying the enqueued `set_inventory` command, if any). -/
def dropTick (w : ItemWorld) : ItemWorld :=
  let (w', cmd) := drop_items w
  if cmd then setInventoryNone w' else w'

/-- One iteration of the loop body of `throw_dropped_items` for a
single item carrying `Item` and `ItemThrow`, parameterised by the
`z_depth_for_map_layer` function (defined outside the provided
sources). Returns `none` where the system panics on an `unwrap`, and
otherwise the updated world together with the number of times the
item's one-shot effect routine was scheduled on the command queue. -/
def throw_dropped_items (zDepth : Nat → ℚ) (t : ItemThrow)
    (pc : PlayerControl) (w : ItemWorld) : Option (ItemWorld × Nat) :=
  if w.droppedMarker then
    let scheduled := if t.hasSystem then 1 else 0
    let w := { w with droppedMarker := false, attachment := false }
    match w.playerFlipX with
    | none => none
    | some flip =>
      let horizontal_flip_factor := if flip then (⟨-1, 1⟩ : Vec2) else Vec2.one
      if w.playerIdxPresent then
        let throw_velocity := t.velocity_from_control pc
        let z? : Option ℚ :=
          match w.itemSpawnerLayer with
          | some layer => some (zDepth layer)
          | none =>
            match w.playerSpawnerLayers with
            | [] => none
            | layer :: _ => some (zDepth layer)
        match z? with
        | none => none
        | some z =>
          let w := { w with z := z }
          let w :=
            match w.body with
            | some _ =>
              { w with body := some (Body.mk
                  (throw_velocity * horizontal_flip_factor)
                  (t.spin * horizontal_flip_factor.x * qsignum throw_velocity.y)
                  false) }
            | none => w
          some (w, scheduled)
      else none
  else
    some (w, 0)

/-! ## Kick bomb spawn command (src/core/elements/kick_bomb.rs) -/

/-- Observable outcome of the system built by
`KickBombCommand::spawn_kick_bomb` on the target entity:
whether the kick-bomb component set (handle, item, throw, grab,
sprite, transform, animated sprite, body) was inserted, the inserted
idle/lit state component, and the body's velocity and angular
velocity after the command ran. -/
structure SpawnResult where
  componentsInserted : Bool
  litBomb : Option LitKickBomb
  idleBomb : Bool
  velocity : Vec2
  angular_velocity : ℚ
deriving DecidableEq, Repr

/-- The system run by `KickBombCommand::spawn_kick_bomb`.
`cast` is the result of `try_cast_meta_handle::<KickBombMeta>` on the
untyped handle (`none` when the cast fails). The outer `Option` is
`none` exactly where the closure panics (the `player_flip_f.unwrap()`
in the lit branch); a failed cast is instead logged and returns early
with nothing inserted. A freshly inserted `KinematicBody` has zero
velocity and zero angular velocity (`..default()`). -/
def spawn_kick_bomb (cast : Option KickBombMeta) (lit : Bool)
    (player_flip_f : Option Bool) : Option SpawnResult :=
  match cast with
  | none => some ⟨false, none, false, ⟨0, 0⟩, 0⟩
  | some m =>
    if lit then
      match player_flip_f with
      | none => none
      | some f =>
        let horizontal_flip_factor := if f then (⟨-1, 1⟩ : Vec2) else Vec2.one
        some
          { componentsInserted := true
            litBomb := some
              { arm_delay := ⟨m.arm_delay, 0⟩
                fuse_time := ⟨m.fuse_time, 0⟩
                kicking := false
                kicks := 0 }
            idleBomb := false
            velocity :=
              ⟨horizontal_flip_factor.x * m.throw_velocity,
               horizontal_flip_factor.y * m.throw_velocity / (5 / 2)⟩
            angular_velocity := m.angular_velocity }
    else
      some
        { componentsInserted := true
          litBomb := none
          idleBomb := true
          velocity := ⟨0, 0⟩
          angular_velocity := 0 }

/-! ## Walk player state (src/core/player/state/states/walk.rs) -/

/-- Closed symbol table for the player state identifiers consulted by
the walk module (the source interns them as strings; the spec's design
notes call for exactly this enum). `other` stands for any further
registered state. -/
inductive StateId where
  | walk
  | ragdoll
  | midair
  | crouch
  | idle
  | other (n : Nat)
deriving DecidableEq, Repr

/-- Per-player data read and written by the walk systems:
`PlayerState` (`current`, `age`), the animation bank's current
animation, the sprite's `flip_x` and the kinematic body. -/
structure WalkPlayer where
  current : StateId
  age : Nat
  animation : String
  flip_x : Bool
  velocity : Vec2
  is_on_ground : Bool
deriving DecidableEq, Repr

/-- The walk module's `player_state_transition` loop body for one
player: players not currently in walk are left unchanged; otherwise
the guards are evaluated in priority order and the first true guard
writes the new current state. -/
def player_state_transition (c : PlayerControl) (p : WalkPlayer) : WalkPlayer :=
  if p.current ≠ StateId.walk then p
  else if c.ragdoll_just_pressed then { p with current := StateId.ragdoll }
  else if !p.is_on_ground then { p with current := StateId.midair }
  else if c.move_direction.y < -(1 / 2) then { p with current := StateId.crouch }
  else if c.move_direction.x = 0 then { p with current := StateId.idle }
  else p

/-- The walk module's `handle_player_state` loop body for one player,
with the relevant `PlayerMeta` stats as parameters. -/
def handle_player_state (accel_walk_speed walk_speed jump_speed : ℚ)
    (c : PlayerControl) (p : WalkPlayer) : WalkPlayer :=
  if p.current ≠ StateId.walk then p
  else
    let p := if p.age = 0 then { p with animation := "walk" } else p
    let p :=
      if c.jump_just_pressed then
        { p with velocity := ⟨p.velocity.x, jump_speed⟩ }
      else p
    let vx := p.velocity.x + accel_walk_speed * c.move_direction.x
    let vx :=
      if qIsSignPositive c.move_direction.x then
        min vx (walk_speed * c.move_direction.x)
      else
        max vx (walk_speed * c.move_direction.x)
    let p := { p with velocity := ⟨vx, p.velocity.y⟩ }
    if 0 < c.move_direction.x then { p with flip_x := false }
    else if c.move_direction.x < 0 then { p with flip_x := true }
    else p

/-! ## Concrete test vectors for the kick-escalation scenario -/

/-- A kickable, non-contact-explosive bomb metadata with long fuse and
arm delay. -/
def kickTraceMeta : KickBombMeta :=
  { kick_velocity := ⟨1, 1⟩
    kickable := true
    throw_velocity := 0
    fuse_time := 100
    angular_velocity := 0
    arm_delay := 100
    explode_on_contact := false }

/-- A freshly lit bomb state: both timers at zero, no kicks. -/
def kickTraceState : KickBombState :=
  { lit := { arm_delay := ⟨100, 0⟩, fuse_time := ⟨100, 0⟩,
             kicking := false, kicks := 0 }
    velocity := ⟨0, 0⟩
    bomb_x := 0 }

/-- A tick with a non-invincible player in contact (standing left,
facing right). -/
def contactEnv : KickEnv :=
  { delta := 1, contact_players := false, held := false
    kick_contact := some ⟨false, -1⟩ }

/-- A tick with no player contact. -/
def noContactEnv : KickEnv :=
  { delta := 1, contact_players := false, held := false
    kick_contact := none }

/-! ## Helper lemmas about the lit kick bomb step -/

theorem kickDeflect_fst_lit (m : KickBombMeta) (c : KickContact) (s : KickBombState) :
    (kickDeflect m c s).1.lit = s.lit := by
  unfold kickDeflect
  repeat' split
  all_goals rfl

theorem kickDeflect_explode (m : KickBombMeta) (c : KickContact) (s : KickBombState)
    (h : 3 < s.lit.kicks) : kickDeflect m c s = (s, true) := by
  unfold kickDeflect
  rw [if_pos h]

theorem litKickBombBranch_timers (m : KickBombMeta) (e : KickEnv) (s : KickBombState) :
    (litKickBombBranch m e s).1.lit.fuse_time = s.lit.fuse_time
  ∧ (litKickBombBranch m e s).1.lit.arm_delay = s.lit.arm_delay := by
  constructor <;>
    (unfold litKickBombBranch
     repeat' split
     all_goals try rfl
     all_goals rw [kickDeflect_fst_lit])

theorem litKickBombBranch_fuse (m : KickBombMeta) (e : KickEnv) (s : KickBombState)
    (h : s.lit.fuse_time.finished = true) : litKickBombBranch m e s = (s, true) := by
  unfold litKickBombBranch
  rw [h]
  rfl

theorem litKickBombStep_def (m : KickBombMeta) (e : KickEnv) (s : KickBombState) :
    litKickBombStep m e s =
      litKickBombBranch m e
        { s with lit := { s.lit with
            fuse_time := s.lit.fuse_time.tick e.delta,
            arm_delay := s.lit.arm_delay.tick e.delta } } := rfl

/-! ## Theorems -/

/-- C8: when the untyped metadata handle does not cast to
`KickBombMeta`, the spawn command logs and returns early: it completes
normally (no panic, never fatal), no kick-bomb components are
inserted, and neither the idle nor the lit state component appears. -/
theorem C8_spawn_cast_failure_skips (lit : Bool) (player_flip_f : Option Bool) :
    spawn_kick_bomb none lit player_flip_f =
      some { componentsInserted := false
             litBomb := none
             idleBomb := false
             velocity := ⟨0, 0⟩
             angular_velocity := 0 } := rfl

/-- C9: with `lit = true`, `spawn_kick_bomb` unwraps `player_flip_f`,
so `none` reaches the panicking branch; and for `player_flip_f = some
f` the lit bomb's initial velocity is `(±throw_velocity,
throw_velocity / 2.5)` — the x component negated exactly when the flip
flag is true — and the angular velocity is the configured spin. -/
theorem C9_spawn_lit_flip_precondition (m : KickBombMeta) (f : Bool) :
    spawn_kick_bomb (some m) true none = none
  ∧ ∃ r, spawn_kick_bomb (some m) true (some f) = some r
      ∧ r.velocity =
          ⟨if f then -m.throw_velocity else m.throw_velocity,
           m.throw_velocity / (5 / 2)⟩
      ∧ r.angular_velocity = m.angular_velocity := by
  refine ⟨rfl, ?_⟩
  cases f <;>
    exact ⟨_, rfl, by simp [spawn_kick_bomb, Vec2.one], rfl⟩

/-- C4: `velocity_from_control` classifies the input direction as
roll (down and moving), drop (down and still), lob (moving and up),
fast (moving and flat), up (still and up), normal (still and flat);
and for a `strength s` profile, input `(1, 1)` selects the lob vector,
which equals the base lob vector scaled by `s`, unchanged by the
facing-right flip factor `Vec2.one`. -/
theorem C4_velocity_from_control_classification
    (t : ItemThrow) (pc : PlayerControl) (vn : Vec2 → Vec2) (s : ℚ) :
    (pc.move_direction.y < 0 → 0 < |pc.move_direction.x| →
      t.velocity_from_control pc = t.roll)
  ∧ (pc.move_direction.y < 0 → pc.move_direction.x = 0 →
      t.velocity_from_control pc = t.drop)
  ∧ (0 < |pc.move_direction.x| → 0 < pc.move_direction.y →
      t.velocity_from_control pc = t.lob)
  ∧ (0 < |pc.move_direction.x| → pc.move_direction.y = 0 →
      t.velocity_from_control pc = t.fast)
  ∧ (pc.move_direction.x = 0 → 0 < pc.move_direction.y →
      t.velocity_from_control pc = t.up)
  ∧ (pc.move_direction.x = 0 → pc.move_direction.y = 0 →
      t.velocity_from_control pc = t.normal)
  ∧ (pc.move_direction = ⟨1, 1⟩ →
      (ItemThrow.strength vn s).velocity_from_control pc =
          s • (ItemThrow.base vn).lob
      ∧ (s • (ItemThrow.base vn).lob) * Vec2.one = s • (ItemThrow.base vn).lob) := by
  refine ⟨?_, ?_, ?_, ?_, ?_, ?_, ?_⟩
  · intro hy hx
    simp [ItemThrow.velocity_from_control, hy, hx]
  · intro hy hx
    simp [ItemThrow.velocity_from_control, hy, hx]
  · intro hx hy
    simp [ItemThrow.velocity_from_control, hx, hy, not_lt.mpr hy.le]
  · intro hx hy
    simp [ItemThrow.velocity_from_control, hx, hy]
  · intro hx hy
    simp [ItemThrow.velocity_from_control, hx, hy, not_lt.mpr hy.le]
  · intro hx hy
    simp [ItemThrow.velocity_from_control, hx, hy]
  · intro hpc
    constructor
    · simp [ItemThrow.velocity_from_control, hpc, ItemThrow.strength]
    · simp [Vec2.one]

/-- C6: the walk transition leaves players outside the walk state
unchanged and otherwise evaluates its guards in priority order —
ragdoll just pressed, then not on ground, then move y below `-0.5`,
then move x zero — the first true guard writing the new state and
masking all later ones; with no true guard the player stays in walk. -/
theorem C6_walk_transition_priority (c : PlayerControl) (p : WalkPlayer) :
    (p.current ≠ StateId.walk → player_state_transition c p = p)
  ∧ (p.current = StateId.walk → c.ragdoll_just_pressed = true →
      player_state_transition c p = { p with current := StateId.ragdoll })
  ∧ (p.current = StateId.walk → c.ragdoll_just_pressed = false →
      p.is_on_ground = false →
      player_state_transition c p = { p with current := StateId.midair })
  ∧ (p.current = StateId.walk → c.ragdoll_just_pressed = false →
      p.is_on_ground = true → c.move_direction.y < -(1 / 2) →
      player_state_transition c p = { p with current := StateId.crouch })
  ∧ (p.current = StateId.walk → c.ragdoll_just_pressed = false →
      p.is_on_ground = true → ¬c.move_direction.y < -(1 / 2) →
      c.move_direction.x = 0 →
      player_state_transition c p = { p with current := StateId.idle })
  ∧ (p.current = StateId.walk → c.ragdoll_just_pressed = false →
      p.is_on_ground = true → ¬c.move_direction.y < -(1 / 2) →
      c.move_direction.x ≠ 0 →
      player_state_transition c p = p) := by
  refine ⟨?_, ?_, ?_, ?_, ?_, ?_⟩ <;>
    intros <;> simp_all [player_state_transition]

/-- C7: in the walk update, the horizontal velocity becomes the old
velocity plus `accel_walk_speed * x`, clamped by `min` against
`walk_speed * x` when x's sign is positive and by `max` when negative,
and the sprite faces right (`flip_x = false`) when `x > 0`, left when
`x < 0`, and keeps its facing when `x = 0`. -/
theorem C7_walk_update_velocity_and_facing
    (accel_walk_speed walk_speed jump_speed : ℚ)
    (c : PlayerControl) (p : WalkPlayer) (h : p.current = StateId.walk) :
    (qIsSignPositive c.move_direction.x = true →
      (handle_player_state accel_walk_speed walk_speed jump_speed c p).velocity.x =
        min (p.velocity.x + accel_walk_speed * c.move_direction.x)
          (walk_speed * c.move_direction.x))
  ∧ (qIsSignPositive c.move_direction.x = false →
      (handle_player_state accel_walk_speed walk_speed jump_speed c p).velocity.x =
        max (p.velocity.x + accel_walk_speed * c.move_direction.x)
          (walk_speed * c.move_direction.x))
  ∧ (0 < c.move_direction.x →
      (handle_player_state accel_walk_speed walk_speed jump_speed c p).flip_x = false)
  ∧ (c.move_direction.x < 0 →
      (handle_player_state accel_walk_speed walk_speed jump_speed c p).flip_x = true)
  ∧ (c.move_direction.x = 0 →
      (handle_player_state accel_walk_speed walk_speed jump_speed c p).flip_x = p.flip_x) := by
  refine ⟨?_, ?_, ?_, ?_, ?_⟩ <;>
    intro hx <;>
      (simp only [handle_player_state]; rw [if_neg (by simp [h])]) <;>
      split_ifs <;>
        (try rfl) <;> (try simp_all [qIsSignPositive]) <;> linarith

/-- C4 witness: input `(1, 1)` on a `strength 2` profile yields the
base lob vector scaled by 2. -/
theorem C4_velocity_from_control_classification_witness :
    ((⟨⟨1, 1⟩, false, false⟩ : PlayerControl).move_direction = (⟨1, 1⟩ : Vec2))
  ∧ (ItemThrow.strength id 2).velocity_from_control ⟨⟨1, 1⟩, false, false⟩ =
      (2 : ℚ) • (ItemThrow.base id).lob :=
  ⟨rfl,
   ((C4_velocity_from_control_classification (ItemThrow.strength id 2)
      ⟨⟨1, 1⟩, false, false⟩ id 2).2.2.2.2.2.2 rfl).1⟩

/-- C6 witness: a walking player with ragdoll just pressed and also
airborne transitions to ragdoll (the first true guard wins). -/
theorem C6_walk_transition_priority_witness :
    ((⟨StateId.walk, 0, "walk", false, ⟨0, 0⟩, false⟩ : WalkPlayer).current = StateId.walk)
  ∧ ((⟨⟨0, 0⟩, true, false⟩ : PlayerControl).ragdoll_just_pressed = true)
  ∧ player_state_transition ⟨⟨0, 0⟩, true, false⟩
      ⟨StateId.walk, 0, "walk", false, ⟨0, 0⟩, false⟩ =
      ⟨StateId.ragdoll, 0, "walk", false, ⟨0, 0⟩, false⟩ :=
  ⟨rfl, rfl,
   (C6_walk_transition_priority ⟨⟨0, 0⟩, true, false⟩
      ⟨StateId.walk, 0, "walk", false, ⟨0, 0⟩, false⟩).2.1 rfl rfl⟩

/-- C7 witness: a walking player with rightward input faces right
after the update. -/
theorem C7_walk_update_velocity_and_facing_witness :
    ((0 : ℚ) < (⟨⟨1, 0⟩, false, false⟩ : PlayerControl).move_direction.x)
  ∧ (handle_player_state 1 2 3 ⟨⟨1, 0⟩, false, false⟩
      ⟨StateId.walk, 1, "walk", true, ⟨0, 0⟩, true⟩).flip_x = false :=
  ⟨by norm_num,
   (C7_walk_update_velocity_and_facing 1 2 3 ⟨⟨1, 0⟩, false, false⟩
      ⟨StateId.walk, 1, "walk", true, ⟨0, 0⟩, true⟩ rfl).2.2.1 (by norm_num)⟩

/-- C2: every tick while Lit, both timers advance by the elapsed tick
time, and whenever the fuse timer's accumulated elapsed time reaches
or exceeds the fuse duration the bomb explodes that tick, regardless
of contact state or of being held (the fuse check precedes all other
checks, so the conclusion holds for every environment). -/
theorem C2_fuse_timer_explodes (m : KickBombMeta) (e : KickEnv) (s : KickBombState) :
    (litKickBombStep m e s).1.lit.fuse_time = s.lit.fuse_time.tick e.delta
  ∧ (litKickBombStep m e s).1.lit.arm_delay = s.lit.arm_delay.tick e.delta
  ∧ (s.lit.fuse_time.duration ≤ s.lit.fuse_time.elapsed + e.delta →
      (litKickBombStep m e s).2 = true) := by
  refine ⟨?_, ?_, ?_⟩
  · rw [litKickBombStep_def]
    exact (litKickBombBranch_timers m e _).1
  · rw [litKickBombStep_def]
    exact (litKickBombBranch_timers m e _).2
  · intro hfin
    have hfinished : (s.lit.fuse_time.tick e.delta).finished = true := by
      simp [Timer.finished, Timer.tick, hfin]
    rw [litKickBombStep_def,
      litKickBombBranch_fuse m e
        { s with lit := { s.lit with
            fuse_time := s.lit.fuse_time.tick e.delta,
            arm_delay := s.lit.arm_delay.tick e.delta } } hfinished]

/-- C2 witness: a fuse with duration 10 and 9 seconds elapsed explodes
on a 2-second tick, even while held. -/
theorem C2_fuse_timer_explodes_witness :
    ((⟨⟨⟨100, 0⟩, ⟨10, 9⟩, false, 0⟩, ⟨0, 0⟩, 0⟩ : KickBombState).lit.fuse_time.duration ≤
      (⟨⟨⟨100, 0⟩, ⟨10, 9⟩, false, 0⟩, ⟨0, 0⟩, 0⟩ : KickBombState).lit.fuse_time.elapsed +
        (⟨2, false, true, none⟩ : KickEnv).delta)
  ∧ (litKickBombStep kickTraceMeta ⟨2, false, true, none⟩
      ⟨⟨⟨100, 0⟩, ⟨10, 9⟩, false, 0⟩, ⟨0, 0⟩, 0⟩).2 = true :=
  ⟨by norm_num,
   (C2_fuse_timer_explodes kickTraceMeta ⟨2, false, true, none⟩
      ⟨⟨⟨100, 0⟩, ⟨10, 9⟩, false, 0⟩, ⟨0, 0⟩, 0⟩).2.2 (by norm_num)⟩

/-- C1: for a Lit, kickable bomb that is not held and whose fuse has
not finished (and whose explode-on-contact check did not fire): with
no player contact this tick the kick counter is unchanged, the kicking
flag clears and nothing explodes; a contact while `kicking` is already
set (held, continuous contact) leaves the counter unchanged; a contact
after a tick without contact (`kicking` false) increments the counter;
and whenever the post-increment counter exceeds 3 the bomb explodes
this tick. Concretely, from a fresh drop, 3 contact-edge kicks plus a
4th contact explode on the 4th contact (index 6 of the alternating
trace), while after only 3 contact edges the counter is exactly 3 and
the bomb has not exploded. -/
theorem C1_kick_counter_edges_and_threshold (m : KickBombMeta) (e : KickEnv)
    (s : KickBombState)
    (hk : m.kickable = true)
    (hheld : e.held = false)
    (hfuse : (s.lit.fuse_time.tick e.delta).finished = false)
    (hcontact : (m.explode_on_contact && e.contact_players &&
        (s.lit.arm_delay.tick e.delta).finished) = false) :
    (e.kick_contact = none →
      litKickBombStep m e s =
        ({ s with lit := { arm_delay := s.lit.arm_delay.tick e.delta
                           fuse_time := s.lit.fuse_time.tick e.delta
                           kicking := false
                           kicks := s.lit.kicks } }, false))
  ∧ (∀ c, e.kick_contact = some c → s.lit.kicking = true →
      (litKickBombStep m e s).1.lit.kicks = s.lit.kicks)
  ∧ (∀ c, e.kick_contact = some c → s.lit.kicking = false →
      (litKickBombStep m e s).1.lit.kicks = (s.lit.kicks + 1) % 2 ^ 32)
  ∧ (∀ c, e.kick_contact = some c → 3 < (litKickBombStep m e s).1.lit.kicks →
      (litKickBombStep m e s).2 = true)
  ∧ litRunExplodesAt kickTraceMeta kickTraceState
      [contactEnv, noContactEnv, contactEnv, noContactEnv, contactEnv,
       noContactEnv, contactEnv] = some 6
  ∧ litRunExplodesAt kickTraceMeta kickTraceState
      [contactEnv, noContactEnv, contactEnv, noContactEnv, contactEnv] = none
  ∧ (litRunState kickTraceMeta kickTraceState
      [contactEnv, noContactEnv, contactEnv, noContactEnv, contactEnv]).lit.kicks = 3 := by
  refine ⟨?_, ?_, ?_, ?_, ?_, ?_, ?_⟩
  · intro hc
    rw [litKickBombStep_def]
    simp [litKickBombBranch, hfuse, hcontact, hheld, hk, hc]
  · intro c hc hkick
    rw [litKickBombStep_def]
    simp [litKickBombBranch, hfuse, hcontact, hheld, hk, hc,
      kickDeflect_fst_lit, kicksAfterContact, hkick]
  · intro c hc hkick
    rw [litKickBombStep_def]
    simp [litKickBombBranch, hfuse, hcontact, hheld, hk, hc,
      kickDeflect_fst_lit, kicksAfterContact, hkick]
  · intro c hc h3
    have hb :
        litKickBombBranch m e
          { s with lit := { s.lit with
              fuse_time := s.lit.fuse_time.tick e.delta,
              arm_delay := s.lit.arm_delay.tick e.delta } } =
          kickDeflect m c
            { s with lit :=
                { arm_delay := s.lit.arm_delay.tick e.delta
                  fuse_time := s.lit.fuse_time.tick e.delta
                  kicking := true
                  kicks := kicksAfterContact
                    { s.lit with
                      fuse_time := s.lit.fuse_time.tick e.delta,
                      arm_delay := s.lit.arm_delay.tick e.delta } } } := by
      simp [litKickBombBranch, hfuse, hcontact, hheld, hk, hc]
    rw [litKickBombStep_def, hb] at h3 ⊢
    rw [kickDeflect_fst_lit] at h3
    rw [kickDeflect_explode m c _ h3]
  · norm_num [litRunExplodesAt, litKickBombStep, litKickBombBranch, kickDeflect,
      kicksAfterContact, Timer.tick, Timer.finished, kickTraceMeta, kickTraceState,
      contactEnv, noContactEnv]
  · norm_num [litRunExplodesAt, litKickBombStep, litKickBombBranch, kickDeflect,
      kicksAfterContact, Timer.tick, Timer.finished, kickTraceMeta, kickTraceState,
      contactEnv, noContactEnv]
  · norm_num [litRunState, litKickBombStep, litKickBombBranch, kickDeflect,
      kicksAfterContact, Timer.tick, Timer.finished, kickTraceMeta, kickTraceState,
      contactEnv, noContactEnv]

/-- C1 witness: a first contact on a freshly dropped bomb (kicking
flag clear, counter zero) increments the counter to 1. -/
theorem C1_kick_counter_edges_and_threshold_witness :
    kickTraceMeta.kickable = true
  ∧ contactEnv.held = false
  ∧ (kickTraceState.lit.fuse_time.tick contactEnv.delta).finished = false
  ∧ kickTraceState.lit.kicking = false
  ∧ (litKickBombStep kickTraceMeta contactEnv kickTraceState).1.lit.kicks =
      (kickTraceState.lit.kicks + 1) % 2 ^ 32 :=
  ⟨rfl, rfl,
   by norm_num [kickTraceState, contactEnv, Timer.tick, Timer.finished],
   rfl,
   (C1_kick_counter_edges_and_threshold kickTraceMeta contactEnv kickTraceState
      rfl rfl
      (by norm_num [kickTraceState, contactEnv, Timer.tick, Timer.finished])
      (by norm_num [kickTraceMeta])).2.2.1 ⟨false, -1⟩ rfl rfl⟩

/-- C5: a Lit bomb held by a player inventory, whose fuse has not
finished and whose explode-on-contact branch did not trigger, has its
kicking flag cleared and is otherwise untouched this tick: kicks,
velocity and position are unchanged and it does not explode. -/
theorem C5_held_suppresses_kick_logic (m : KickBombMeta) (e : KickEnv)
    (s : KickBombState)
    (hfuse : (s.lit.fuse_time.tick e.delta).finished = false)
    (hcontact : (m.explode_on_contact && e.contact_players &&
        (s.lit.arm_delay.tick e.delta).finished) = false)
    (hheld : e.held = true) :
    litKickBombStep m e s =
      ({ s with lit := { arm_delay := s.lit.arm_delay.tick e.delta
                         fuse_time := s.lit.fuse_time.tick e.delta
                         kicking := false
                         kicks := s.lit.kicks } }, false) := by
  rw [litKickBombStep_def]
  simp [litKickBombBranch, hfuse, hcontact, hheld]

/-- C5 witness: a held, kickable, freshly lit bomb is returned with
its kicking flag cleared, kicks still zero, and no explosion. -/
theorem C5_held_suppresses_kick_logic_witness :
    (kickTraceState.lit.fuse_time.tick (1 : ℚ)).finished = false
  ∧ litKickBombStep kickTraceMeta ⟨1, false, true, some ⟨false, -1⟩⟩ kickTraceState =
      (⟨⟨⟨100, 1⟩, ⟨100, 1⟩, false, 0⟩, ⟨0, 0⟩, 0⟩, false) :=
  ⟨by norm_num [kickTraceState, Timer.tick, Timer.finished],
   (C5_held_suppresses_kick_logic kickTraceMeta ⟨1, false, true, some ⟨false, -1⟩⟩
      kickTraceState
      (by norm_num [kickTraceState, Timer.tick, Timer.finished])
      (by norm_num [kickTraceMeta]) rfl).trans
     (by norm_num [kickTraceState, Timer.tick])⟩

/-- C3: an item held by player P with a drop request is, after the
drop tick, no longer referenced by P's inventory and carries the
dropped marker; the throw system then removes the dropped marker and
the player-body attachment, re-activates the physics body with the
selected throw velocity mirrored by P's facing and the spin scaled by
the facing sign and the vertical throw sign, and schedules the
optional one-shot effect routine exactly once. -/
theorem C3_drop_then_throw_effects (zD : Nat → ℚ) (t : ItemThrow)
    (pc : PlayerControl) (w : ItemWorld) (f : Bool) (b : Body)
    (hinv : w.inventory = some ())
    (hdrop : w.dropMarker = true)
    (hflip : w.playerFlipX = some f)
    (hidx : w.playerIdxPresent = true)
    (hz : w.itemSpawnerLayer.isSome = true ∨ w.playerSpawnerLayers ≠ [])
    (hbody : w.body = some b) :
    (dropTick w).inventory = none
  ∧ (dropTick w).droppedMarker = true
  ∧ (throw_dropped_items zD t pc (dropTick w)).map (fun r => r.1.droppedMarker) =
      some false
  ∧ (throw_dropped_items zD t pc (dropTick w)).map (fun r => r.1.attachment) =
      some false
  ∧ (throw_dropped_items zD t pc (dropTick w)).map (fun r => r.1.body) =
      some (some
        { velocity := t.velocity_from_control pc *
            (if f then (⟨-1, 1⟩ : Vec2) else Vec2.one)
          angular_velocity := t.spin *
            (if f then (⟨-1, 1⟩ : Vec2) else Vec2.one).x *
            qsignum (t.velocity_from_control pc).y
          is_deactivated := false })
  ∧ (throw_dropped_items zD t pc (dropTick w)).map (fun r => r.2) =
      some (if t.hasSystem then 1 else 0) := by
  have hw1 : dropTick w =
      { w with dropMarker := false, inventory := none, droppedMarker := true } := by
    simp [dropTick, drop_items, hinv, hdrop, setInventoryNone]
  rw [hw1]
  refine ⟨rfl, rfl, ?_, ?_, ?_, ?_⟩ <;>
    · rcases hsp : w.itemSpawnerLayer with _ | l
      · rcases hlist : w.playerSpawnerLayers with _ | ⟨l0, ls⟩
        · rw [hsp] at hz
          rw [hlist] at hz
          simp at hz
        · simp [throw_dropped_items, hflip, hidx, hbody, hsp, hlist]
      · simp [throw_dropped_items, hflip, hidx, hbody, hsp]

/-- C3 witness: a concrete held item with a drop request is thrown
with the lob velocity (input up-right, facing right, spin 5), the body
re-activated, and the effect routine scheduled once. -/
theorem C3_drop_then_throw_effects_witness :
    ((⟨true, some (), false, true, some ⟨⟨0, 0⟩, 0, true⟩, 0, some false, true,
        none, [2]⟩ : ItemWorld).inventory = some ())
  ∧ (dropTick ⟨true, some (), false, true, some ⟨⟨0, 0⟩, 0, true⟩, 0, some false,
        true, none, [2]⟩).inventory = none :=
  ⟨rfl,
   (C3_drop_then_throw_effects (fun _ => 0)
      ⟨⟨1, 1⟩, ⟨2, 2⟩, ⟨0, 1⟩, ⟨0, 0⟩, ⟨3, 3⟩, ⟨1, 0⟩, 5, true⟩
      ⟨⟨1, 1⟩, false, false⟩
      ⟨true, some (), false, true, some ⟨⟨0, 0⟩, 0, true⟩, 0, some false, true,
        none, [2]⟩
      false ⟨⟨0, 0⟩, 0, true⟩ rfl rfl rfl rfl (Or.inr (by simp)) rfl).1⟩

/-- C10: for a dropped item with no originating spawner
back-reference, the throw system panics when the dropping player's
sprite is missing, when the player's index component is missing, or
when no entity carries both a player-spawner and a map-layer
component; otherwise the fallback z-depth is taken from the first such
entity in store iteration order. -/
theorem C10_spawnerless_depth_fallback (zD : Nat → ℚ) (t : ItemThrow)
    (pc : PlayerControl) (w : ItemWorld)
    (hdropped : w.droppedMarker = true)
    (hnsp : w.itemSpawnerLayer = none) :
    (w.playerFlipX = none → throw_dropped_items zD t pc w = none)
  ∧ (∀ f, w.playerFlipX = some f → w.playerIdxPresent = false →
      throw_dropped_items zD t pc w = none)
  ∧ (∀ f, w.playerFlipX = some f → w.playerIdxPresent = true →
      w.playerSpawnerLayers = [] → throw_dropped_items zD t pc w = none)
  ∧ (∀ f l ls, w.playerFlipX = some f → w.playerIdxPresent = true →
      w.playerSpawnerLayers = l :: ls →
      (throw_dropped_items zD t pc w).map (fun r => r.1.z) = some (zD l)) := by
  refine ⟨?_, ?_, ?_, ?_⟩
  · intro hflip
    simp [throw_dropped_items, hdropped, hflip]
  · intro f hflip hidx
    simp [throw_dropped_items, hdropped, hflip, hidx]
  · intro f hflip hidx hlist
    simp [throw_dropped_items, hdropped, hflip, hidx, hnsp, hlist]
  · intro f l ls hflip hidx hlist
    cases hbody : w.body <;>
      simp [throw_dropped_items, hdropped, hflip, hidx, hnsp, hlist, hbody]

/-- C10 witness: a spawner-less dropped item whose dropping player has
no sprite makes the throw system panic. -/
theorem C10_spawnerless_depth_fallback_witness :
    ((⟨false, none, true, true, none, 0, none, true, none, []⟩ :
        ItemWorld).droppedMarker = true)
  ∧ throw_dropped_items (fun _ => 0) (ItemThrow.base id) ⟨⟨0, 0⟩, false, false⟩
      ⟨false, none, true, true, none, 0, none, true, none, []⟩ = none :=
  ⟨rfl,
   (C10_spawnerless_depth_fallback (fun _ => 0) (ItemThrow.base id)
      ⟨⟨0, 0⟩, false, false⟩
      ⟨false, none, true, true, none, 0, none, true, none, []⟩ rfl rfl).1 rfl⟩

end FishCore
